import Mathlib

/-!
Shallow embedding of the MEV bot (src/src/main.rs) for checking the design
specification against the code.

Modelling conventions:
- `U256` values are modelled as `Nat`.  The program only compares them
  (`>`, `> 0`) and builds the literal `500000`; no arithmetic is performed,
  so no overflow wrapping can occur and `Nat` is adequate.
- `Address` (ethers `H160`) is modelled as `Nat` (the 160-bit value obtained
  by parsing the hex literal); `H256` transaction hashes are `Nat` as well.
- `Result<T>` (anyhow) is modelled as `Except String T`.
- The websocket `Provider`, the `tracing` log statements and the tokio task
  plumbing are external collaborators with no data flow into the embedded
  logic; structs keep only the fields the embedded code reads.
- Each monitoring loop is modelled by a function from the finite list of
  events it has consumed so far to the list of opportunities it handed to
  the executor, plus a per-iteration function mirroring the loop body.
-/

/-- A transaction request placed in an opportunity bundle.  The program never
constructs one (`build_sandwich_transactions` returns an empty vector), so the
payload is irrelevant; a single-constructor type records the shape. -/
inductive TransactionRequest where
  | mk : TransactionRequest
deriving Repr, DecidableEq

/-- ethers `Bytes`: raw call data as a byte list. -/
abbrev Bytes := List Nat

/-- The fields of an ethers `Transaction` that `main.rs` reads:
`tx.to`, `tx.input`, `tx.hash`, `tx.block_number`.  The field `to` is a
reserved word in Lean, hence the guillemets. -/
structure Transaction where
  hash : Nat
  «to» : Option Nat
  input : Bytes
  block_number : Option Nat
deriving Repr, DecidableEq

/-- A block header; the code only reads `block.number` (for logging). -/
structure Block where
  number : Option Nat
deriving Repr, DecidableEq

/-- Enum `OpportunityType` from src/src/main.rs lines 19-37: the tagged variant of
a detected opportunity. -/
inductive OpportunityType where
  | arbitrage (token_in : Nat) (token_out : Nat) (dex_path : List String)
  | liquidation (protocol : String) (user : Nat) (collateral : Nat) (debt : Nat)
  | sandwich (target_tx : Nat) (token : Nat) (amount : Nat)
deriving Repr, DecidableEq

/-- Struct `MEVOpportunity` from src/src/main.rs lines 10-17. -/
structure MEVOpportunity where
  opportunity_type : OpportunityType
  profit_estimate : Nat
  gas_estimate : Nat
  block_number : Nat
  transaction_data : List TransactionRequest
deriving Repr, DecidableEq

/-- The signer wallet; key material is external, only its identity matters. -/
structure LocalWallet where
  key : Nat
deriving Repr, DecidableEq

/-- Value of a hex digit character, `none` on a non-hex character. -/
def hexDigitVal (c : Char) : Option Nat :=
  if 48 ≤ c.toNat ∧ c.toNat ≤ 57 then some (c.toNat - 48)
  else if 97 ≤ c.toNat ∧ c.toNat ≤ 102 then some (c.toNat - 87)
  else if 65 ≤ c.toNat ∧ c.toNat ≤ 70 then some (c.toNat - 55)
  else none

/-- Accumulate hex digits left to right. -/
def hexFold (cs : List Char) (acc : Nat) : Option Nat :=
  match cs with
  | [] => some acc
  | c :: rest =>
    match hexDigitVal c with
    | some d => hexFold rest (acc * 16 + d)
    | none => none

/-- Embedding of `"0x…".parse::<Address>()`: ethers `H160` string parsing, requiring a
`0x`-prefixed string of exactly 40 hex digits (case-insensitive). -/
def parseAddress (s : String) : Option Nat :=
  match s.data with
  | '0' :: 'x' :: rest =>
    if rest.length = 40 then hexFold rest 0 else none
  | _ => none

/-- The hardcoded DEX router address literals from `is_dex_swap`
(src/src/main.rs lines 203-207): Uniswap V2, Uniswap V3, SushiSwap. -/
def dex_routers : List String :=
  ["0x7a250d5630B4cF539739dF2C5dAcb4c659F2488D",
   "0xE592427A0AEce92De3Edee1F18E0157C05861564",
   "0xd9e1cE17f2641f24aE83637ab66a2cca9C378B9F"]

/-- Function `MEVBot::is_dex_swap` (src/src/main.rs lines 201-210): checks whether the
destination address is one of the hardcoded router addresses.  The source
calls `.parse().unwrap()` on each literal; every literal parses, so modelling
the unwrap as a match on the `Option` agrees with the source on all inputs. -/
def is_dex_swap (address : Nat) : Bool :=
  dex_routers.any (fun router =>
    match parseAddress router with
    | some a => address == a
    | none => false)

/-- Function `MEVBot::parse_swap_data` (src/src/main.rs lines 212-216): swap-calldata
decoding is unimplemented; the body is `Ok(None)` for every input. -/
def parse_swap_data (data : Bytes) : Except String (Option (Nat × Nat)) :=
  Except.ok none

/-- Function `MEVBot::calculate_sandwich_profit` (src/src/main.rs lines 218-222):
profit simulation is unimplemented; the body is `Ok(U256::zero())`. -/
def calculate_sandwich_profit (token : Nat) (amount : Nat) : Except String Nat :=
  Except.ok 0

/-- Function `MEVBot::build_sandwich_transactions` (src/src/main.rs lines 224-227):
bundle construction is unimplemented; the body is `Ok(vec![])`. -/
def build_sandwich_transactions (token : Nat) (amount : Nat) :
    Except String (List TransactionRequest) :=
  Except.ok []

/-- The `MEVOpportunity` record literal built inside
`check_sandwich_opportunity` (src/src/main.rs lines 176-186), with the
bundle already extracted from the `build_sandwich_transactions(…)?` call. -/
def mkSandwichOpportunity (tx : Transaction) (token : Nat) (amount : Nat)
    (profit : Nat) (txdata : List TransactionRequest) : MEVOpportunity :=
  { opportunity_type := OpportunityType.sandwich tx.hash token amount
    profit_estimate := profit
    gas_estimate := 500000
    block_number := tx.block_number.getD 0
    transaction_data := txdata }

/-- The recognition gate at the head of `check_sandwich_opportunity`
(src/src/main.rs lines 163-170): a transaction enters the sandwich path
exactly when it has a destination and `is_dex_swap` accepts that
destination.  The call data is not consulted at this gate. -/
def recognizedAsDexSwap (tx : Transaction) : Bool :=
  match tx.«to» with
  | some a => is_dex_swap a
  | none => false

/-- Function `MEVBot::check_sandwich_opportunity` (src/src/main.rs lines 161-193).
Each `?` becomes a match on the `Except`. -/
def check_sandwich_opportunity (tx : Transaction) :
    Except String (Option MEVOpportunity) :=
  match tx.«to» with
  | some a =>
    if is_dex_swap a then
      match parse_swap_data tx.input with
      | Except.error e => Except.error e
      | Except.ok none => Except.ok none
      | Except.ok (some (token, amount)) =>
        match calculate_sandwich_profit token amount with
        | Except.error e => Except.error e
        | Except.ok profit =>
          if 0 < profit then
            match build_sandwich_transactions token amount with
            | Except.error e => Except.error e
            | Except.ok txdata =>
              Except.ok (some (mkSandwichOpportunity tx token amount profit txdata))
          else Except.ok none
    else Except.ok none
  | none => Except.ok none

/-- Function `MEVBot::check_liquidation_opportunity` (src/src/main.rs lines 195-199):
unimplemented; the body is `Ok(None)` for every transaction. -/
def check_liquidation_opportunity (tx : Transaction) :
    Except String (Option MEVOpportunity) :=
  Except.ok none

/-- Function `MEVBot::analyze_transaction` (src/src/main.rs lines 147-159): first the
sandwich check, then the liquidation check, each early-returning on `Some`. -/
def analyze_transaction (tx : Transaction) :
    Except String (Option MEVOpportunity) :=
  match check_sandwich_opportunity tx with
  | Except.error e => Except.error e
  | Except.ok (some o) => Except.ok (some o)
  | Except.ok none =>
    match check_liquidation_opportunity tx with
    | Except.error e => Except.error e
    | Except.ok (some o) => Except.ok (some o)
    | Except.ok none => Except.ok none

/-- Struct `OpportunityFinder` (src/src/main.rs lines 240-243): keeps the DEX
contract registry; the provider handle is external. -/
structure OpportunityFinder where
  dex_contracts : List (String × Nat)
deriving Repr, DecidableEq

/-- Function `OpportunityFinder::new` (src/src/main.rs lines 246-255): inserts the
Uniswap V2 and SushiSwap router addresses. -/
def OpportunityFinder.new : OpportunityFinder :=
  { dex_contracts :=
      [("uniswap_v2", (parseAddress "0x7a250d5630B4cF539739dF2C5dAcb4c659F2488D").getD 0),
       ("sushiswap", (parseAddress "0xd9e1cE17f2641f24aE83637ab66a2cca9C378B9F").getD 0)] }

/-- Function `OpportunityFinder::find_block_opportunities` (src/src/main.rs lines
257-260): unimplemented; the body is `Ok(None)`. -/
def find_block_opportunities (finder : OpportunityFinder) (block : Block) :
    Except String (Option (List MEVOpportunity)) :=
  Except.ok none

/-- Function `OpportunityFinder::find_arbitrage_opportunities` (src/src/main.rs lines
262-265): unimplemented; the body is `Ok(None)`. -/
def find_arbitrage_opportunities (finder : OpportunityFinder) :
    Except String (Option (List MEVOpportunity)) :=
  Except.ok none

/-- Struct `MEVBot` (src/src/main.rs lines 39-46) restricted to the fields the
embedded logic reads: the profit threshold and the opportunity finder.  The
provider, wallet, mempool monitor and executor fields are collaborator
handles carrying no data consulted by the decision logic. -/
structure MEVBot where
  opportunity_finder : OpportunityFinder
  min_profit_threshold : Nat
deriving Repr, DecidableEq

/-- Function `MEVBot::new` (src/src/main.rs lines 49-68): stores `min_profit_wei` as
the threshold and a fresh `OpportunityFinder`. -/
def MEVBot.new (min_profit_wei : Nat) : MEVBot :=
  { opportunity_finder := OpportunityFinder.new
    min_profit_threshold := min_profit_wei }

/-- The admission step of the mempool loop body (src/src/main.rs lines
90-98): given the analysis result of one transaction, the opportunities
handed to the executor in that iteration — the candidate exactly when its
`profit_estimate` strictly exceeds `min_profit_threshold`. -/
def mempoolAdmitted (bot : MEVBot) (oppOpt : Option MEVOpportunity) :
    List MEVOpportunity :=
  match oppOpt with
  | some o =>
    if bot.min_profit_threshold < o.profit_estimate then [o] else []
  | none => []

/-- One iteration of `MEVBot::start_mempool_monitoring` (src/src/main.rs
lines 87-101): the event is the result of `get_transaction` (`none` means
the loop continues); analysis errors propagate via `?`; executor errors are
logged, not propagated. -/
def mempoolIteration (bot : MEVBot) (event : Option Transaction) :
    Except String (List MEVOpportunity) :=
  match event with
  | some tx =>
    match analyze_transaction tx with
    | Except.error e => Except.error e
    | Except.ok oppOpt => Except.ok (mempoolAdmitted bot oppOpt)
  | none => Except.ok []

/-- The mempool loop over a finite prefix of its event stream: concatenates
the opportunities executed across iterations. -/
def mempoolExecuted (bot : MEVBot) :
    List (Option Transaction) → Except String (List MEVOpportunity)
  | [] => Except.ok []
  | e :: rest =>
    match mempoolIteration bot e with
    | Except.error err => Except.error err
    | Except.ok execd =>
      match mempoolExecuted bot rest with
      | Except.error err => Except.error err
      | Except.ok more => Except.ok (execd ++ more)

/-- The `for opportunity in opportunities` body of
`MEVBot::start_block_monitoring` (src/src/main.rs lines 115-121): each
candidate is executed exactly when its profit strictly exceeds the
threshold; no other state is consulted. -/
def blockLoopExecute (bot : MEVBot) :
    List MEVOpportunity → List MEVOpportunity
  | [] => []
  | o :: rest =>
    if bot.min_profit_threshold < o.profit_estimate then
      o :: blockLoopExecute bot rest
    else
      blockLoopExecute bot rest

/-- One iteration of `MEVBot::start_block_monitoring` (src/src/main.rs lines
110-123): the finder runs on the new block, and any candidates pass through
the per-candidate threshold filter. -/
def blockIteration (bot : MEVBot) (block : Block) :
    Except String (List MEVOpportunity) :=
  match find_block_opportunities bot.opportunity_finder block with
  | Except.error e => Except.error e
  | Except.ok none => Except.ok []
  | Except.ok (some ops) => Except.ok (blockLoopExecute bot ops)

/-- The `for opportunity in opportunities` body of
`MEVBot::start_arbitrage_monitoring` (src/src/main.rs lines 132-140): same
per-candidate threshold filter as the block loop, written separately in the
source. -/
def arbLoopExecute (bot : MEVBot) :
    List MEVOpportunity → List MEVOpportunity
  | [] => []
  | o :: rest =>
    if bot.min_profit_threshold < o.profit_estimate then
      o :: arbLoopExecute bot rest
    else
      arbLoopExecute bot rest

/-- One iteration of `MEVBot::start_arbitrage_monitoring` (src/src/main.rs
lines 129-144). -/
def arbIteration (bot : MEVBot) : Except String (List MEVOpportunity) :=
  match find_arbitrage_opportunities bot.opportunity_finder with
  | Except.error e => Except.error e
  | Except.ok none => Except.ok []
  | Except.ok (some ops) => Except.ok (arbLoopExecute bot ops)

/-- An observable network effect of the executor.  A submission carries the
transaction payload and the nonce assigned to it.  The embedding records the
actions each executor routine performs; the source routines perform none. -/
inductive NetworkAction where
  | submitTransaction (txn : TransactionRequest) (nonce : Nat)
deriving Repr, DecidableEq

/-- The nonces assigned across a trace of network actions, in order. -/
def noncesOf (actions : List NetworkAction) : List Nat :=
  actions.map (fun a => match a with | NetworkAction.submitTransaction _ n => n)

/-- Function `TransactionExecutor::execute_arbitrage` (src/src/main.rs lines 299-302):
the body is `Ok(())`; no transaction is built, signed or submitted. -/
def execute_arbitrage (opportunity : MEVOpportunity) (wallet : LocalWallet) :
    Except String (Unit × List NetworkAction) :=
  Except.ok ((), [])

/-- Function `TransactionExecutor::execute_liquidation` (src/src/main.rs lines
304-307): the body is `Ok(())`. -/
def execute_liquidation (opportunity : MEVOpportunity) (wallet : LocalWallet) :
    Except String (Unit × List NetworkAction) :=
  Except.ok ((), [])

/-- Function `TransactionExecutor::execute_sandwich` (src/src/main.rs lines 309-312):
the body is `Ok(())`. -/
def execute_sandwich (opportunity : MEVOpportunity) (wallet : LocalWallet) :
    Except String (Unit × List NetworkAction) :=
  Except.ok ((), [])

/-- Function `TransactionExecutor::execute_opportunity` (src/src/main.rs lines
277-297): dispatches on the opportunity kind, propagates the per-kind
routine's error via `?`, and returns `Ok(())`.  The routines' network
actions are carried through so effects are observable in the model. -/
def execute_opportunity (opportunity : MEVOpportunity) (wallet : LocalWallet) :
    Except String (Unit × List NetworkAction) :=
  match opportunity.opportunity_type with
  | OpportunityType.arbitrage _ _ _ =>
    match execute_arbitrage opportunity wallet with
    | Except.error e => Except.error e
    | Except.ok (_, acts) => Except.ok ((), acts)
  | OpportunityType.liquidation _ _ _ _ =>
    match execute_liquidation opportunity wallet with
    | Except.error e => Except.error e
    | Except.ok (_, acts) => Except.ok ((), acts)
  | OpportunityType.sandwich _ _ _ =>
    match execute_sandwich opportunity wallet with
    | Except.error e => Except.error e
    | Except.ok (_, acts) => Except.ok ((), acts)

/-- Sequential submissions through the executor, as the monitoring loops
perform them across iterations: each opportunity is executed in order and
the network-action traces are concatenated. -/
def executeSequence (opps : List MEVOpportunity) (wallet : LocalWallet) :
    Except String (Unit × List NetworkAction) :=
  match opps with
  | [] => Except.ok ((), [])
  | o :: rest =>
    match execute_opportunity o wallet with
    | Except.error e => Except.error e
    | Except.ok (_, acts) =>
      match executeSequence rest wallet with
      | Except.error e => Except.error e
      | Except.ok (_, more) => Except.ok ((), acts ++ more)

/-- Modelled from the spec: the dedup key of the in-flight set, derived from
the opportunity kind — target transaction id for Sandwich, borrower and
protocol for Liquidation, token pair and path for Arbitrage.  The source
maintains no in-flight set and derives no such key; this definition exists
only to state which opportunities the spec regards as duplicates. -/
inductive DedupKey where
  | sandwichKey (target_tx : Nat)
  | liquidationKey (protocol : String) (user : Nat)
  | arbitrageKey (token_in : Nat) (token_out : Nat) (dex_path : List String)
deriving Repr, DecidableEq

/-- Modelled from the spec: the kind-derived dedup key of an opportunity. -/
def dedupKey : OpportunityType → DedupKey
  | OpportunityType.sandwich target_tx _ _ => DedupKey.sandwichKey target_tx
  | OpportunityType.liquidation protocol user _ _ => DedupKey.liquidationKey protocol user
  | OpportunityType.arbitrage token_in token_out dex_path =>
    DedupKey.arbitrageKey token_in token_out dex_path

/-- Concrete data for counterexamples and witnesses. -/
def sandwichOppA : MEVOpportunity :=
  { opportunity_type := OpportunityType.sandwich 42 7 100
    profit_estimate := 11
    gas_estimate := 500000
    block_number := 3
    transaction_data := [] }

/-- A second opportunity with the same dedup key as `sandwichOppA` (same
target transaction) but a different profit estimate. -/
def sandwichOppB : MEVOpportunity :=
  { opportunity_type := OpportunityType.sandwich 42 7 100
    profit_estimate := 12
    gas_estimate := 500000
    block_number := 3
    transaction_data := [] }

/-- A profitable arbitrage opportunity evaluated at block 0, far behind any
later chain head. -/
def staleArbOpp : MEVOpportunity :=
  { opportunity_type := OpportunityType.arbitrage 1 2 ["uniswap_v2", "sushiswap"]
    profit_estimate := 11
    gas_estimate := 100
    block_number := 0
    transaction_data := [] }

/-- An opportunity whose profit equals the threshold of `MEVBot.new 5`. -/
def boundaryOpp : MEVOpportunity :=
  { opportunity_type := OpportunityType.sandwich 9 7 100
    profit_estimate := 5
    gas_estimate := 500000
    block_number := 3
    transaction_data := [] }

/-- A transaction whose destination is the Uniswap V2 router and whose call
data starts with the ERC-20 `transfer(address,uint256)` selector
`0xa9059cbb` — not a swap call. -/
def transferCallTx : Transaction :=
  { hash := 77
    «to» := parseAddress "0x7a250d5630B4cF539739dF2C5dAcb4c659F2488D"
    input := [169, 5, 156, 187]
    block_number := some 3 }

/-- A liquidation opportunity used to exercise the executor. -/
def liqOpp : MEVOpportunity :=
  { opportunity_type := OpportunityType.liquidation "aave" 5 6 7
    profit_estimate := 20
    gas_estimate := 300000
    block_number := 4
    transaction_data := [] }

/-- A sample wallet. -/
def walletA : LocalWallet := { key := 1 }

/-! ## Helper lemmas shared by the claim theorems -/

/-- Swap-data decoding yields `Ok(None)` on every input. -/
theorem parse_swap_data_ok_none (d : Bytes) : parse_swap_data d = Except.ok none :=
  rfl

/-- The sandwich check yields `Ok(None)` on every transaction, because the
decoder never recognizes any call data. -/
theorem check_sandwich_ok_none (tx : Transaction) :
    check_sandwich_opportunity tx = Except.ok none := by
  unfold check_sandwich_opportunity
  cases htx : tx.«to» with
  | none => rfl
  | some a => cases hd : is_dex_swap a <;> simp [hd, parse_swap_data]

/-- Transaction analysis yields `Ok(None)` on every transaction. -/
theorem analyze_transaction_ok_none (tx : Transaction) :
    analyze_transaction tx = Except.ok none := by
  unfold analyze_transaction
  rw [check_sandwich_ok_none]
  rfl

/-- One mempool iteration executes nothing. -/
theorem mempoolIteration_ok_nil (bot : MEVBot) (event : Option Transaction) :
    mempoolIteration bot event = Except.ok [] := by
  cases event with
  | none => rfl
  | some tx =>
    simp [mempoolIteration, analyze_transaction_ok_none, mempoolAdmitted]

/-- The mempool loop executes nothing over any finite event prefix. -/
theorem mempoolExecuted_ok_nil (bot : MEVBot) (events : List (Option Transaction)) :
    mempoolExecuted bot events = Except.ok [] := by
  induction events with
  | nil => rfl
  | cons e rest ih =>
    unfold mempoolExecuted
    rw [mempoolIteration_ok_nil, ih]
    rfl

/-- The block-loop body is the profit-threshold filter. -/
theorem blockLoopExecute_eq_filter (bot : MEVBot) (ops : List MEVOpportunity) :
    blockLoopExecute bot ops =
      ops.filter (fun o => decide (bot.min_profit_threshold < o.profit_estimate)) := by
  induction ops with
  | nil => rfl
  | cons o rest ih =>
    unfold blockLoopExecute
    by_cases h : bot.min_profit_threshold < o.profit_estimate <;>
      simp [h, List.filter, ih]

/-- The arbitrage-loop body is the profit-threshold filter. -/
theorem arbLoopExecute_eq_filter (bot : MEVBot) (ops : List MEVOpportunity) :
    arbLoopExecute bot ops =
      ops.filter (fun o => decide (bot.min_profit_threshold < o.profit_estimate)) := by
  induction ops with
  | nil => rfl
  | cons o rest ih =>
    unfold arbLoopExecute
    by_cases h : bot.min_profit_threshold < o.profit_estimate <;>
      simp [h, List.filter, ih]

/-- Executing any single opportunity succeeds with an empty action trace. -/
theorem execute_opportunity_ok_nil (opportunity : MEVOpportunity) (wallet : LocalWallet) :
    execute_opportunity opportunity wallet = Except.ok ((), []) := by
  unfold execute_opportunity
  cases opportunity.opportunity_type <;> rfl

/-- Executing any sequence of opportunities succeeds with an empty action
trace. -/
theorem executeSequence_ok_nil (opps : List MEVOpportunity) (wallet : LocalWallet) :
    executeSequence opps wallet = Except.ok ((), []) := by
  induction opps with
  | nil => rfl
  | cons o rest ih =>
    unfold executeSequence
    rw [execute_opportunity_ok_nil, ih]
    rfl

/-! ## Claim theorems -/

/-- C1: in every monitoring loop, admission to execution requires
`profit_estimate` strictly greater than `min_profit_threshold`; a candidate
whose profit is less than or equal to the threshold — in particular exactly
equal to it — is not executed.  The mempool loop (lines 90-98), the block
loop (lines 114-122) and the arbitrage loop (lines 131-141) all use the
strict comparison `profit_estimate > min_profit_threshold`. -/
theorem c1_threshold_strictly_greater (bot : MEVBot) (o : MEVOpportunity)
    (ops : List MEVOpportunity)
    (h : o.profit_estimate ≤ bot.min_profit_threshold) :
    mempoolAdmitted bot (some o) = [] ∧
    blockLoopExecute bot (o :: ops) = blockLoopExecute bot ops ∧
    arbLoopExecute bot (o :: ops) = arbLoopExecute bot ops := by
  refine ⟨?_, ?_, ?_⟩ <;>
    simp [mempoolAdmitted, blockLoopExecute, arbLoopExecute, Nat.not_lt.mpr h]

/-- Witness for C1 at the boundary: a candidate whose profit (5) equals the
threshold of `MEVBot.new 5` is rejected by all three loops. -/
theorem c1_threshold_strictly_greater_witness :
    mempoolAdmitted (MEVBot.new 5) (some boundaryOpp) = [] ∧
    blockLoopExecute (MEVBot.new 5) (boundaryOpp :: []) = blockLoopExecute (MEVBot.new 5) [] ∧
    arbLoopExecute (MEVBot.new 5) (boundaryOpp :: []) = arbLoopExecute (MEVBot.new 5) [] :=
  c1_threshold_strictly_greater (MEVBot.new 5) boundaryOpp [] (by decide)

/-- C2 counterexample: two distinct opportunities with the same dedup key
(same sandwich target transaction 42) are both admitted for execution in a
single block-loop iteration, and likewise across two mempool-loop
iterations: no in-flight set exists and nothing suppresses the duplicate. -/
theorem c2_duplicate_key_both_admitted_counterexample :
    dedupKey sandwichOppA.opportunity_type = dedupKey sandwichOppB.opportunity_type ∧
    sandwichOppA ≠ sandwichOppB ∧
    blockLoopExecute (MEVBot.new 10) [sandwichOppA, sandwichOppB] =
      [sandwichOppA, sandwichOppB] ∧
    mempoolAdmitted (MEVBot.new 10) (some sandwichOppA) ++
      mempoolAdmitted (MEVBot.new 10) (some sandwichOppB) =
      [sandwichOppA, sandwichOppB] := by
  refine ⟨rfl, by decide, by decide, by decide⟩

/-- C2 amended: the bot consults no in-flight set.  Admission is a
memoryless per-candidate profit filter: the candidates executed over a
concatenation of iterations are the concatenation of the candidates executed
in each, and each candidate is admitted exactly when its profit strictly
exceeds the threshold, regardless of which equal-dedup-key opportunities
were admitted before. -/
theorem c2_no_inflight_set_memoryless (bot : MEVBot)
    (l1 l2 : List MEVOpportunity) :
    blockLoopExecute bot (l1 ++ l2) =
      blockLoopExecute bot l1 ++ blockLoopExecute bot l2 ∧
    arbLoopExecute bot (l1 ++ l2) =
      arbLoopExecute bot l1 ++ arbLoopExecute bot l2 ∧
    blockLoopExecute bot l1 =
      l1.filter (fun o => decide (bot.min_profit_threshold < o.profit_estimate)) := by
  refine ⟨?_, ?_, blockLoopExecute_eq_filter bot l1⟩ <;>
    simp [blockLoopExecute_eq_filter, arbLoopExecute_eq_filter, List.filter_append]

/-- C3 counterexample: executing a sequence of two opportunities through the
executor performs no network action at all — in particular no nonce is
assigned to either submission, refuting that the executor assigns each
submission a nonce from a counter it owns (it owns no counter). -/
theorem c3_no_nonce_assigned_counterexample :
    executeSequence [sandwichOppA, liqOpp] walletA =
      Except.ok ((), ([] : List NetworkAction)) :=
  rfl

/-- C3 amended: the executor owns no nonce counter and its execution
routines perform no network action, so across any sequence of submissions
the list of assigned nonces is empty — strict monotonicity and
never-reuse hold vacuously, and a `SubmissionFailure` never occurs. -/
theorem c3_executor_assigns_no_nonces (opps : List MEVOpportunity)
    (wallet : LocalWallet) (acts : List NetworkAction)
    (h : executeSequence opps wallet = Except.ok ((), acts)) :
    noncesOf acts = [] ∧ List.Chain' (fun a b => a < b) (noncesOf acts) := by
  rw [executeSequence_ok_nil] at h
  cases h
  exact ⟨rfl, List.chain'_nil⟩

/-- Witness for C3 amended at a concrete submission sequence. -/
theorem c3_executor_assigns_no_nonces_witness :
    noncesOf [] = [] ∧ List.Chain' (fun a b => a < b) (noncesOf []) :=
  c3_executor_assigns_no_nonces [sandwichOppA, liqOpp] walletA [] rfl

/-- C4 counterexample: with the spec's default staleness tolerance 0 and a
chain head of 100, `staleArbOpp` (trigger block 0) is stale — the head has
advanced far past `trigger_block + tolerance` — yet both the block loop and
the arbitrage loop of a bot with threshold 10 execute it, because no
staleness check exists anywhere in the code. -/
theorem c4_stale_candidate_executed_counterexample :
    staleArbOpp.block_number + 0 < 100 ∧
    blockLoopExecute (MEVBot.new 10) [staleArbOpp] = [staleArbOpp] ∧
    arbLoopExecute (MEVBot.new 10) [staleArbOpp] = [staleArbOpp] := by
  refine ⟨by decide, by decide, by decide⟩

/-- C4 amended: admission never consults `block_number`.  In each loop the
decision for a candidate is exactly the profit-threshold comparison, so an
opportunity is executed or rejected identically whatever its trigger block
and whatever the current chain head. -/
theorem c4_no_staleness_check (bot : MEVBot) (o : MEVOpportunity) (n : Nat) :
    mempoolAdmitted bot (some { o with block_number := n }) =
      (if bot.min_profit_threshold < o.profit_estimate
        then [{ o with block_number := n }] else []) ∧
    blockLoopExecute bot [{ o with block_number := n }] =
      (if bot.min_profit_threshold < o.profit_estimate
        then [{ o with block_number := n }] else []) ∧
    arbLoopExecute bot [{ o with block_number := n }] =
      (if bot.min_profit_threshold < o.profit_estimate
        then [{ o with block_number := n }] else []) := by
  by_cases h : bot.min_profit_threshold < o.profit_estimate <;>
    simp [mempoolAdmitted, blockLoopExecute, arbLoopExecute, h]

/-- C5: the profit estimator returns exactly zero — `Ok(U256::zero())` — for
every candidate, in particular for any candidate with insufficient inputs;
the result is never an error, and as an unsigned quantity it is never
negative. -/
theorem c5_profit_estimator_returns_zero (token : Nat) (amount : Nat) :
    calculate_sandwich_profit token amount = Except.ok 0 :=
  rfl

/-- C6: on unrecognized call-data encodings the decoder returns `Ok(None)`
— the empty result, not an error — and since every encoding is
unrecognized, the sandwich detector returns `Ok(None)` on every pending
transaction; consequently an opportunity is only ever emitted when the
decode succeeds and the computed profit is strictly positive, the two
guards on the emission path. -/
theorem c6_decode_fails_gracefully :
    (∀ d : Bytes, parse_swap_data d = Except.ok none) ∧
    (∀ tx : Transaction, check_sandwich_opportunity tx = Except.ok none) :=
  ⟨parse_swap_data_ok_none, check_sandwich_ok_none⟩

/-- C7 counterexample: `transferCallTx` is addressed to the Uniswap V2
router but its call data is the ERC-20 `transfer(address,uint256)` selector
`0xa9059cbb` — not a swap call — yet the recognition gate of
`check_sandwich_opportunity` treats it as a DEX swap, because `is_dex_swap`
checks the destination address only and never reads the function selector. -/
theorem c7_transfer_treated_as_swap_counterexample :
    transferCallTx.input = [169, 5, 156, 187] ∧
    recognizedAsDexSwap transferCallTx = true := by
  refine ⟨rfl, by decide⟩

/-- C7 amended: swap recognition is by destination address alone.
`is_dex_swap` accepts exactly the three hardcoded router addresses, the
recognition gate accepts a transaction exactly when its destination is one
of them, and the verdict is invariant under changing the call data, so no
function-selector check takes part in recognition. -/
theorem c7_recognition_by_address_alone (a : Nat) (tx : Transaction) (i : Bytes) :
    (is_dex_swap a = true ↔
      (a = 697323163401596485410334513241460920685086001293 ∨
       a = 1310620586257487374012534461768647161943012283748 ∨
       a = 1243886618218031985084555540764507313509865327519)) ∧
    (recognizedAsDexSwap tx = true ↔
      (∃ b, tx.«to» = some b ∧ is_dex_swap b = true)) ∧
    recognizedAsDexSwap { tx with input := i } = recognizedAsDexSwap tx := by
  refine ⟨?_, ?_, rfl⟩
  · have g1 : parseAddress "0x7a250d5630B4cF539739dF2C5dAcb4c659F2488D" =
        some 697323163401596485410334513241460920685086001293 := by decide
    have g2 : parseAddress "0xE592427A0AEce92De3Edee1F18E0157C05861564" =
        some 1310620586257487374012534461768647161943012283748 := by decide
    have g3 : parseAddress "0xd9e1cE17f2641f24aE83637ab66a2cca9C378B9F" =
        some 1243886618218031985084555540764507313509865327519 := by decide
    simp [is_dex_swap, dex_routers, g1, g2, g3]
  · cases htx : tx.«to» <;> simp [recognizedAsDexSwap, htx]

/-- C8: the detection pipeline is inert — `analyze_transaction` returns
`Ok(None)` for every transaction (because `parse_swap_data` returns
`Ok(None)` for every call-data input and `check_liquidation_opportunity`
returns `Ok(None)` for every transaction), so the mempool monitoring loop
never produces or executes any opportunity over any finite event prefix. -/
theorem c8_mempool_pipeline_inert :
    (∀ tx : Transaction, analyze_transaction tx = Except.ok none) ∧
    (∀ d : Bytes, parse_swap_data d = Except.ok none) ∧
    (∀ tx : Transaction, check_liquidation_opportunity tx = Except.ok none) ∧
    (∀ (bot : MEVBot) (events : List (Option Transaction)),
      mempoolExecuted bot events = Except.ok []) :=
  ⟨analyze_transaction_ok_none, parse_swap_data_ok_none,
   fun _ => rfl, mempoolExecuted_ok_nil⟩

/-- C9: `execute_opportunity` succeeds for every opportunity of every kind
and every wallet, performing no network action, because each per-kind
execution routine is a no-op returning `Ok(())`. -/
theorem c9_execute_always_ok (opportunity : MEVOpportunity) (wallet : LocalWallet) :
    execute_opportunity opportunity wallet = Except.ok ((), []) ∧
    execute_arbitrage opportunity wallet = Except.ok ((), []) ∧
    execute_liquidation opportunity wallet = Except.ok ((), []) ∧
    execute_sandwich opportunity wallet = Except.ok ((), []) :=
  ⟨execute_opportunity_ok_nil opportunity wallet, rfl, rfl, rfl⟩

/-- C10: `build_sandwich_transactions` returns the empty bundle for every
token and amount, and the `MEVOpportunity` record built by
`check_sandwich_opportunity` always carries `gas_estimate` 500000, the
analyzed transaction's hash as the sandwich `target_tx`, and exactly the
bundle obtained from `build_sandwich_transactions` as `transaction_data`. -/
theorem c10_sandwich_construction_shape :
    (∀ token amount : Nat, build_sandwich_transactions token amount = Except.ok []) ∧
    (∀ (tx : Transaction) (token amount profit : Nat)
       (txdata : List TransactionRequest),
      (mkSandwichOpportunity tx token amount profit txdata).gas_estimate = 500000 ∧
      (mkSandwichOpportunity tx token amount profit txdata).opportunity_type =
        OpportunityType.sandwich tx.hash token amount ∧
      (mkSandwichOpportunity tx token amount profit txdata).transaction_data = txdata) :=
  ⟨fun _ _ => rfl, fun _ _ _ _ _ => ⟨rfl, rfl, rfl⟩⟩
